import Mathlib

/-!
Shallow embedding of the multiplayer game client in `game.js`.

The client is a single `GameClient` object mutated by event handlers.  We
model it as a `ClientState` record together with pure handler functions,
one per method of the source class.  Conventions used throughout:

* JavaScript numbers are modelled as rationals (`ℚ`); all coordinate and
  viewport arithmetic in the source is exact on the inputs we reason about.
* `Math.sqrt(v) < r` (with `v ≥ 0`, `r ≥ 0`) is modelled as the equivalent
  comparison `v < r^2`, keeping every definition executable.
* JavaScript `Map`s are modelled as association lists in insertion order:
  `set` on an existing key updates in place, otherwise appends; iteration
  (`for ... of`) follows the list order, exactly as `Map` iteration does.
* `setTimeout`/`setInterval` are reified as the absolute time at which the
  pending callback fires (`movementTimeout`, `movementInterval`).  A timer
  fire is an explicit event that only has an effect when its timestamp
  matches the armed timer, so `clearTimeout`/`clearInterval` (setting the
  field to `none`) correctly cancels pending fires.
* Outbound socket traffic is the list of `Cmd` values returned by a
  handler; `send` is dropped when the socket is not connected, as in the
  source (`sendMoveCommand` / `sendStopCommand` guard on `isConnected`).
* Rendering calls (`render()`, canvas drawing) do not change client state
  and are omitted, except for `drawPlayer`, whose sprite-selection logic is
  modelled by a `DrawResult` describing what the draw call does.
* `Math.random()` results are passed to the relevant handlers as explicit
  arguments `r1 r2 : ℚ`.
* The display-only statistic `stats.distanceTraveled` (an accumulated
  Euclidean length, never read by any logic) is not modelled; the part of
  `updateStats` that feeds the particle system is.
-/

namespace Game

/-- The four movement directions of the key state / move protocol. -/
inductive Dir
  | up
  | down
  | left
  | right
deriving DecidableEq, Repr

/-- Player facing values used for sprite selection. -/
inductive Facing
  | north
  | south
  | east
  | west
deriving DecidableEq, Repr

/-- A player record as stored in `this.players` (`players_moved` payloads are
handled, with their per-field optionality, by `PlayerUpd` below).
`animationFrame` is optional: `drawPlayer` reads it as
`player.animationFrame || 0`. -/
structure Player where
  id : String
  x : ℚ
  y : ℚ
  facing : Facing
  avatar : String
  username : String
  animationFrame : Option Nat
deriving DecidableEq, Repr

/-- Frame image URLs of an avatar, per direction (`avatarData.frames`). -/
structure AvatarFrames where
  north : List String
  south : List String
  east : List String
deriving DecidableEq, Repr

/-- An avatar definition as stored in `this.avatars`. -/
structure Avatar where
  name : String
  frames : AvatarFrames
deriving DecidableEq, Repr

/-- A DOM `Image`: its source URL and whether loading has completed. -/
structure ImageAsset where
  src : String
  complete : Bool
deriving DecidableEq, Repr

/-- Loaded avatar images per direction, as stored in `this.avatarImages`. -/
structure AvatarImages where
  north : List ImageAsset
  south : List ImageAsset
  east : List ImageAsset
deriving DecidableEq, Repr

/-- The viewport rectangle (`this.viewport`). -/
structure Viewport where
  offsetX : ℚ
  offsetY : ℚ
  width : ℚ
  height : ℚ
deriving DecidableEq, Repr

/-- The four key-state booleans (`this.keyState`). -/
structure KeyState where
  up : Bool
  down : Bool
  left : Bool
  right : Bool
deriving DecidableEq, Repr

/-- A transient particle (`this.particles` entries). -/
structure Particle where
  x : ℚ
  y : ℚ
  vx : ℚ
  vy : ℚ
  life : Int
  maxLife : Int
deriving DecidableEq, Repr

/-- The settings object (`this.settings`), initialised in the constructor and
only ever read afterwards. -/
structure Settings where
  showMiniMap : Bool
  showParticles : Bool
  particleIntensity : ℚ
deriving DecidableEq, Repr

/-- The mutable state of `GameClient`. -/
structure ClientState where
  myPlayerId : Option String
  players : List (String × Player)
  avatars : List (String × Avatar)
  avatarImages : List (String × AvatarImages)
  viewport : Viewport
  isConnected : Bool
  keyState : KeyState
  movementTimeout : Option Nat
  movementInterval : Option Nat
  hoveredPlayer : Option Player
  followingPlayer : Option String
  particles : List Particle
  showSettings : Bool
  showPlayerList : Bool
  lastPlayerPosition : Option (ℚ × ℚ)
  settings : Settings
deriving DecidableEq, Repr

/-- Outbound protocol commands (`socket.send` payloads). -/
inductive Cmd
  | moveDir (d : Dir)
  | moveCoord (x y : ℚ)
  | stop
  | joinGame (username : String)
deriving DecidableEq, Repr

/-- World map side length (`this.worldSize = 2048`). -/
def worldSize : ℚ := 2048

/-- Delay, in milliseconds, before continuous movement starts
(`setTimeout(..., 200)` in `startContinuousMovement`). -/
def movementDelayMs : Nat := 200

/-- Repeat period, in milliseconds, of continuous movement
(`setInterval(..., 100)` in `startContinuousMovement`). -/
def movementRepeatMs : Nat := 100

/-- `Map.prototype.get`. -/
def mapGet {α : Type} (k : String) : List (String × α) → Option α
  | [] => none
  | (q, v) :: rest => if q = k then some v else mapGet k rest

/-- `Map.prototype.set`: update in place if present, else append. -/
def mapSet {α : Type} (k : String) (v : α) : List (String × α) → List (String × α)
  | [] => [(k, v)]
  | (q, w) :: rest => if q = k then (k, v) :: rest else (q, w) :: mapSet k v rest

/-- `Map.prototype.has`. -/
def mapHas {α : Type} (k : String) (m : List (String × α)) : Bool :=
  (mapGet k m).isSome

/-- `Map.prototype.delete`. -/
def mapDelete {α : Type} (k : String) : List (String × α) → List (String × α)
  | [] => []
  | (q, w) :: rest => if q = k then rest else (q, w) :: mapDelete k rest

/-- Read one direction flag of the key state. -/
def getKey : Dir → KeyState → Bool
  | .up, k => k.up
  | .down, k => k.down
  | .left, k => k.left
  | .right, k => k.right

/-- Write one direction flag of the key state. -/
def setKey : Dir → Bool → KeyState → KeyState
  | .up, b, k => { k with up := b }
  | .down, b, k => { k with down := b }
  | .left, b, k => { k with left := b }
  | .right, b, k => { k with right := b }

/-- `this.keyState.up || this.keyState.down || this.keyState.left ||
this.keyState.right`. -/
def anyKeyPressed (k : KeyState) : Bool :=
  k.up || k.down || k.left || k.right

/-- The initial `GameClient` state built by the constructor, given the
initial canvas dimensions set by `setupCanvas`. -/
def initState (w h : ℚ) : ClientState where
  myPlayerId := none
  players := []
  avatars := []
  avatarImages := []
  viewport := { offsetX := 0, offsetY := 0, width := w, height := h }
  isConnected := false
  keyState := { up := false, down := false, left := false, right := false }
  movementTimeout := none
  movementInterval := none
  hoveredPlayer := none
  followingPlayer := none
  particles := []
  showSettings := false
  showPlayerList := false
  lastPlayerPosition := none
  settings := { showMiniMap := true, showParticles := true, particleIntensity := 1 }

/-- `sendMoveCommand` for a string direction: dropped when not connected. -/
def sendMoveCommand (s : ClientState) (d : Dir) : List Cmd :=
  if s.isConnected then [Cmd.moveDir d] else []

/-- `sendMoveCommand` for a coordinate target (click-to-move). -/
def sendMoveCommandXY (s : ClientState) (x y : ℚ) : List Cmd :=
  if s.isConnected then [Cmd.moveCoord x y] else []

/-- `sendStopCommand`: dropped when not connected. -/
def sendStopCommand (s : ClientState) : List Cmd :=
  if s.isConnected then [Cmd.stop] else []

/-- `sendMoveCommandForActiveKeys`: fixed priority up, down, left, right. -/
def sendMoveCommandForActiveKeys (s : ClientState) : List Cmd :=
  if s.keyState.up then sendMoveCommand s .up
  else if s.keyState.down then sendMoveCommand s .down
  else if s.keyState.left then sendMoveCommand s .left
  else if s.keyState.right then sendMoveCommand s .right
  else []

/-- `startContinuousMovement` at current time `t`: clear both timers, then
arm the debounce timeout to fire `movementDelayMs` later.  (After a real
timeout fires the source keeps a stale handle in `this.movementTimeout`;
clearing a fired timer is a no-op, so modelling the field as the pending
fire time is behaviour-preserving.) -/
def startContinuousMovement (t : Nat) (s : ClientState) : ClientState :=
  { s with movementInterval := none, movementTimeout := some (t + movementDelayMs) }

/-- `stopContinuousMovement`: clear both timers and send a stop command. -/
def stopContinuousMovement (s : ClientState) : ClientState × List Cmd :=
  ({ s with movementInterval := none, movementTimeout := none }, sendStopCommand s)

/-- The debounce timeout callback firing at time `t`.  Only has an effect if
the timeout is still armed for `t`; it then starts the repeat interval when
some key is still pressed. -/
def fireMovementTimeout (t : Nat) (s : ClientState) : ClientState × List Cmd :=
  if s.movementTimeout = some t then
    if anyKeyPressed s.keyState then
      ({ s with movementTimeout := none, movementInterval := some (t + movementRepeatMs) }, [])
    else
      ({ s with movementTimeout := none }, [])
  else (s, [])

/-- The repeat interval callback firing at time `t`: send a move command for
the active keys and stay armed for one period later. -/
def fireMovementInterval (t : Nat) (s : ClientState) : ClientState × List Cmd :=
  if s.movementInterval = some t then
    ({ s with movementInterval := some (t + movementRepeatMs) }, sendMoveCommandForActiveKeys s)
  else (s, [])

/-- Keyboard `event.code` values the client reacts to. -/
inductive KeyCode
  | arrowUp
  | arrowDown
  | arrowLeft
  | arrowRight
  | keyS
  | keyP
  | enter
  | other
deriving DecidableEq, Repr

/-- The `event.code` of a direction's arrow key. -/
def arrowOf : Dir → KeyCode
  | .up => .arrowUp
  | .down => .arrowDown
  | .left => .arrowLeft
  | .right => .arrowRight

/-- The `keyName` computed by the arrow-key switch (none for other keys). -/
def keyNameOf : KeyCode → Option Dir
  | .arrowUp => some .up
  | .arrowDown => some .down
  | .arrowLeft => some .left
  | .arrowRight => some .right
  | _ => none

/-- `toggleSettings` (the S key): flips the settings panel visibility. -/
def toggleSettings (s : ClientState) : ClientState :=
  { s with showSettings := !s.showSettings }

/-- `togglePlayerList` (the P key): flips the player list visibility. -/
def togglePlayerList (s : ClientState) : ClientState :=
  { s with showPlayerList := !s.showPlayerList }

/-- `handleKeyDown` at current time `t`.  UI shortcuts are handled first;
movement keys require a connection and a player id, are ignored while
already pressed, and otherwise send one immediate move command and arm the
continuous-movement sequence. -/
def handleKeyDown (t : Nat) (c : KeyCode) (s : ClientState) : ClientState × List Cmd :=
  match c with
  | .keyS => (toggleSettings s, [])
  | .keyP => (togglePlayerList s, [])
  | .enter => (s, [])
  | c =>
    if !s.isConnected || s.myPlayerId.isNone then (s, [])
    else
      match keyNameOf c with
      | none => (s, [])
      | some d =>
        if getKey d s.keyState then (s, [])
        else
          let s := { s with keyState := setKey d true s.keyState }
          (startContinuousMovement t s, sendMoveCommandForActiveKeys s)

/-- `handleKeyUp` at current time `t`: release the key; if no direction
remains pressed stop continuous movement (sending a stop command), else
restart the continuous-movement sequence. -/
def handleKeyUp (t : Nat) (c : KeyCode) (s : ClientState) : ClientState × List Cmd :=
  match keyNameOf c with
  | none => (s, [])
  | some d =>
    let s := { s with keyState := setKey d false s.keyState }
    if anyKeyPressed s.keyState then (startContinuousMovement t s, [])
    else stopContinuousMovement s

/-- `updateViewport`: center on the local player, then clamp each offset to
the world bounds. -/
def updateViewport (s : ClientState) : ClientState :=
  match s.myPlayerId with
  | none => s
  | some pid =>
    match mapGet pid s.players with
    | none => s
    | some p =>
      let ox := p.x - s.viewport.width / 2
      let oy := p.y - s.viewport.height / 2
      { s with viewport :=
          { s.viewport with
              offsetX := max 0 (min ox (worldSize - s.viewport.width))
              offsetY := max 0 (min oy (worldSize - s.viewport.height)) } }

/-- `loadAvatarImages`: create an `Image` per frame URL (not yet complete)
and store the bundle in `this.avatarImages` under the avatar's name. -/
def loadAvatarImages (name : String) (a : Avatar) (s : ClientState) : ClientState :=
  let imgs : AvatarImages :=
    { north := a.frames.north.map (fun u => { src := u, complete := false })
      south := a.frames.south.map (fun u => { src := u, complete := false })
      east := a.frames.east.map (fun u => { src := u, complete := false }) }
  { s with avatarImages := mapSet name imgs s.avatarImages }

/-- Inbound server messages after JSON parsing, tagged by `action`.
`joinGameResp` carries the `success` flag; its payload fields are only read
on success, and the error string only logged on failure. -/
inductive ServerMsg
  | joinGameResp (success : Bool) (playerId : String)
      (players : List (String × Player)) (avatars : List (String × Avatar))
      (error : String)
  | playerJoined (player : Player) (avatar : Avatar)
  | playersMoved (players : List (String × Player))
  | playerLeft (playerId : String)
  | unknown (tag : String)

/-- `handleJoinGameSuccess`: adopt the assigned id, store all players, store
all avatars and start loading their images, then recenter the viewport. -/
def handleJoinGameSuccess (pid : String) (ps : List (String × Player))
    (avs : List (String × Avatar)) (s : ClientState) : ClientState :=
  let s := { s with myPlayerId := some pid }
  let s := { s with players := ps.foldl (fun m e => mapSet e.1 e.2 m) s.players }
  let s := avs.foldl
    (fun st e => loadAvatarImages e.1 e.2 { st with avatars := mapSet e.1 e.2 st.avatars }) s
  updateViewport s

/-- `handlePlayerJoined`: insert the player and its avatar, load images. -/
def handlePlayerJoined (p : Player) (a : Avatar) (s : ClientState) : ClientState :=
  loadAvatarImages a.name a
    { s with players := mapSet p.id p s.players, avatars := mapSet a.name a s.avatars }

/-- `handlePlayersMoved`: store every player record of the message into the
players map, then recenter the viewport. -/
def handlePlayersMoved (entries : List (String × Player)) (s : ClientState) : ClientState :=
  updateViewport { s with players := entries.foldl (fun m e => mapSet e.1 e.2 m) s.players }

/-- `handlePlayerLeft`: remove the player from the map. -/
def handlePlayerLeft (pid : String) (s : ClientState) : ClientState :=
  { s with players := mapDelete pid s.players }

/-- `handleServerMessage`: dispatch on the action tag.  A failed join and an
unknown tag are only logged and change nothing. -/
def handleServerMessage (m : ServerMsg) (s : ClientState) : ClientState :=
  match m with
  | .joinGameResp true pid ps avs _err => handleJoinGameSuccess pid ps avs s
  | .joinGameResp false _ _ _ _err => s
  | .playerJoined p a => handlePlayerJoined p a s
  | .playersMoved ps => handlePlayersMoved ps s
  | .playerLeft pid => handlePlayerLeft pid s
  | .unknown _tag => s

/-- `getPlayerAtPosition`: the first player, in map iteration order, within
50 world units of the point.  The source compares
`Math.sqrt(dx^2 + dy^2) < 50`; we use the equivalent `dx^2 + dy^2 < 2500`. -/
def getPlayerAtPosition (players : List (String × Player)) (x y : ℚ) : Option Player :=
  match players with
  | [] => none
  | (_, p) :: rest =>
    if (p.x - x) ^ 2 + (p.y - y) ^ 2 < 2500 then some p
    else getPlayerAtPosition rest x y

/-- `handleMouseMove` for a canvas-relative pointer position: convert to
world coordinates and hit-test for a hover target. -/
def handleMouseMove (x y : ℚ) (s : ClientState) : ClientState :=
  { s with hoveredPlayer :=
      getPlayerAtPosition s.players (x + s.viewport.offsetX) (y + s.viewport.offsetY) }

/-- `handleRightClick` for a canvas-relative pointer position; `r1 r2` are
the two `Math.random()` samples.  Right-clicking a player other than the
local one sends a coordinate move to a random point near that player. -/
def handleRightClick (x y r1 r2 : ℚ) (s : ClientState) : ClientState × List Cmd :=
  if !s.isConnected || s.myPlayerId.isNone then (s, [])
  else
    let wx := x + s.viewport.offsetX
    let wy := y + s.viewport.offsetY
    match getPlayerAtPosition s.players wx wy with
    | none => (s, [])
    | some p =>
      if some p.id ≠ s.myPlayerId then
        (s, sendMoveCommandXY s (p.x + (r1 - 1/2) * 100) (p.y + (r2 - 1/2) * 100))
      else (s, [])

/-- The direction chosen by `updateFollowPlayer` from the displacement to
the target: the axis with the larger absolute component, toward the
target (vertical on ties, per the source's strict comparison). -/
def domDir (dx dy : ℚ) : Dir :=
  if |dy| < |dx| then (if 0 < dx then .right else .left)
  else (if 0 < dy then .down else .up)

/-- `updateFollowPlayer` (one tick of follow logic): clear a missing target
without a command; stop and clear when within 50 units (squared-distance
form of the source's `Math.sqrt(...) < 50`); otherwise move along the
dominant axis toward the target. -/
def updateFollowPlayer (s : ClientState) : ClientState × List Cmd :=
  match s.followingPlayer with
  | none => ({ s with followingPlayer := none }, [])
  | some fid =>
    match mapGet fid s.players with
    | none => ({ s with followingPlayer := none }, [])
    | some target =>
      match s.myPlayerId with
      | none => (s, [])
      | some myId =>
        match mapGet myId s.players with
        | none => (s, [])
        | some me =>
          if (target.x - me.x) ^ 2 + (target.y - me.y) ^ 2 < 2500 then
            ({ s with followingPlayer := none }, sendStopCommand s)
          else
            (s, sendMoveCommand s (domDir (target.x - me.x) (target.y - me.y)))

/-- `addParticle` with the two `Math.random()` samples for the velocity:
guarded by the particles setting. -/
def addParticle (r1 r2 x y : ℚ) (s : ClientState) : ClientState :=
  if s.settings.showParticles then
    { s with particles := s.particles ++
        [{ x := x, y := y, vx := (r1 - 1/2) * 2, vy := (r2 - 1/2) * 2,
           life := 30, maxLife := 30 }] }
  else s

/-- `updateParticles`: advance each particle, age it, drop the dead. -/
def updateParticles (s : ClientState) : ClientState :=
  let moved := s.particles.map (fun p =>
    { p with x := p.x + p.vx, y := p.y + p.vy, life := p.life - 1 })
  { s with particles := moved.filter (fun p => 0 < p.life) }

/-- `updateStats` (the particle-feeding part; the display-only distance
accumulator is not modelled): when the local player moved since the last
tick (`distance > 0`, i.e. nonzero squared displacement) spawn a particle,
then remember the current position. -/
def updateStats (r1 r2 : ℚ) (s : ClientState) : ClientState :=
  match s.myPlayerId with
  | none => s
  | some myId =>
    match mapGet myId s.players with
    | none => s
    | some me =>
      match s.lastPlayerPosition with
      | none => { s with lastPlayerPosition := some (me.x, me.y) }
      | some lp =>
        let s :=
          if 0 < (me.x - lp.1) ^ 2 + (me.y - lp.2) ^ 2 then addParticle r1 r2 me.x me.y s
          else s
        { s with lastPlayerPosition := some (me.x, me.y) }

/-- One `update()` tick of the game loop: follow logic, particles, stats. -/
def update (r1 r2 : ℚ) (s : ClientState) : ClientState × List Cmd :=
  let r := updateFollowPlayer s
  (updateStats r1 r2 (updateParticles r.1), r.2)

/-- Sprite sheet directions used by the avatar image loader. -/
inductive SheetDir
  | north
  | south
  | east
deriving DecidableEq, Repr

/-- Mark the `i`-th image of a frame list as completely loaded. -/
def markLoaded : List ImageAsset → Nat → List ImageAsset
  | [], _ => []
  | img :: rest, 0 => { img with complete := true } :: rest
  | img :: rest, i + 1 => img :: markLoaded rest i

/-- An avatar frame image finishing its asynchronous load: the browser
marks the `Image` complete (the `onload` handler then only re-renders). -/
def applyImgLoad (name : String) (d : SheetDir) (i : Nat) (s : ClientState) : ClientState :=
  match mapGet name s.avatarImages with
  | none => s
  | some imgs =>
    let imgs :=
      match d with
      | .north => { imgs with north := markLoaded imgs.north i }
      | .south => { imgs with south := markLoaded imgs.south i }
      | .east => { imgs with east := markLoaded imgs.east i }
    { s with avatarImages := mapSet name imgs s.avatarImages }

/-- The frame lists selected by `drawPlayer`'s facing switch, with the flip
flag: west reuses the east frames mirrored.  (`Facing` has exactly the four
values, so the source's `default` fallback to south is unreachable.) -/
def framesFor : Facing → AvatarImages → List ImageAsset × Bool
  | .north, a => (a.north, false)
  | .south, a => (a.south, false)
  | .east, a => (a.east, false)
  | .west, a => (a.east, true)

/-- The frame index used by `drawPlayer`:
`Math.min(player.animationFrame || 0, frames.length - 1)`. -/
def frameIndexOf (p : Player) (frames : List ImageAsset) : Nat :=
  min (p.animationFrame.getD 0) (frames.length - 1)

/-- Visibility culling test of `drawPlayer` (negation of its early return). -/
def inViewport (s : ClientState) (p : Player) : Bool :=
  !(decide (p.x < s.viewport.offsetX) || decide (p.x > s.viewport.offsetX + s.viewport.width) ||
    decide (p.y < s.viewport.offsetY) || decide (p.y > s.viewport.offsetY + s.viewport.height))

/-- What a `drawPlayer` call does for one player. -/
inductive DrawResult
  | skippedOffscreen
  | skippedNoAvatar
  | skippedNoFrames
  | skippedNotLoaded
  | drawn (img : ImageAsset) (flipX : Bool)
deriving DecidableEq, Repr

/-- `drawPlayer`'s control flow up to the actual canvas draw: cull to the
viewport, look up the avatar images, select frames by facing, clamp the
frame index, and skip (without error) when the image is not yet loaded. -/
def drawPlayer (s : ClientState) (p : Player) : DrawResult :=
  if inViewport s p = false then .skippedOffscreen
  else
    match mapGet p.avatar s.avatarImages with
    | none => .skippedNoAvatar
    | some imgs =>
      let fr := (framesFor p.facing imgs).1
      if fr.length = 0 then .skippedNoFrames
      else
        match fr.get? (frameIndexOf p fr) with
        | none => .skippedNoFrames
        | some img =>
          if img.complete then .drawn img (framesFor p.facing imgs).2
          else .skippedNotLoaded

/-- The event sources feeding the client's single-threaded dispatch loop. -/
inductive Ev
  | keyDown (c : KeyCode)
  | keyUp (c : KeyCode)
  | timeoutFire
  | intervalFire
  | mouseMove (x y : ℚ)
  | rightClick (x y r1 r2 : ℚ)
  | serverMsg (m : ServerMsg)
  | connOpen
  | connClose
  | tick (r1 r2 : ℚ)
  | resize (w h : ℚ)
  | imgLoad (name : String) (d : SheetDir) (i : Nat)

/-- One event handled at time `t`: the next state and the commands sent. -/
def step (t : Nat) (e : Ev) (s : ClientState) : ClientState × List Cmd :=
  match e with
  | .keyDown c => handleKeyDown t c s
  | .keyUp c => handleKeyUp t c s
  | .timeoutFire => fireMovementTimeout t s
  | .intervalFire => fireMovementInterval t s
  | .mouseMove x y => (handleMouseMove x y s, [])
  | .rightClick x y r1 r2 => handleRightClick x y r1 r2 s
  | .serverMsg m => (handleServerMessage m s, [])
  | .connOpen =>
    let s := { s with isConnected := true }
    (s, if s.isConnected then [Cmd.joinGame "Abdoulaye"] else [])
  | .connClose => ({ s with isConnected := false }, [])
  | .tick r1 r2 => update r1 r2 s
  | .resize w h =>
    (updateViewport { s with viewport := { s.viewport with width := w, height := h } }, [])
  | .imgLoad name d i => (applyImgLoad name d i s, [])

/-- Run a timestamped event trace, collecting the timestamped commands. -/
def run (evs : List (Nat × Ev)) (s : ClientState) : ClientState × List (Nat × Cmd) :=
  match evs with
  | [] => (s, [])
  | (t, e) :: rest =>
    let r := step t e s
    let r2 := run rest r.1
    (r2.1, r.2.map (fun c => (t, c)) ++ r2.2)

/-- The states the client can reach: the constructor's state followed by
any sequence of handled events. -/
inductive Reachable : ClientState → Prop
  | init (w h : ℚ) : Reachable (initState w h)
  | step (t : Nat) (e : Ev) {s : ClientState} : Reachable s → Reachable (step t e s).1

/-! ### The `players_moved` payload with per-field optionality

`players_moved` carries a map of player id to a partial player record; the
handler stores the received record itself (`this.players.set(playerId,
playerData)`).  To reason about which fields an update carries we make the
optionality of every field explicit. -/

/-- A player record as it appears in a `players_moved` payload: every field
may be absent. -/
structure PlayerUpd where
  x : Option ℚ
  y : Option ℚ
  facing : Option Facing
  avatar : Option String
  username : Option String
  animationFrame : Option Nat
deriving DecidableEq, Repr

/-- The player-map update loop of `handlePlayersMoved`, on payload records
with explicit per-field optionality: each received record is stored as-is
(`Map.set`), replacing the previous record for that id wholesale.  The
viewport recentering and redraw that follow do not touch the stored
records. -/
def handlePlayersMovedUpd (entries : List (String × PlayerUpd))
    (m : List (String × PlayerUpd)) : List (String × PlayerUpd) :=
  entries.foldl (fun acc e => mapSet e.1 e.2 acc) m

/-- A record with every field absent (the starting point of a per-field
merge for a player not seen before). -/
def emptyUpd : PlayerUpd :=
  { x := none, y := none, facing := none, avatar := none, username := none,
    animationFrame := none }

/-- The spec's description of the `players_moved` merge, stated literally
for comparison with `handlePlayersMovedUpd`: fields present in the update
overwrite prior values, fields absent are left untouched. -/
def mergeUpd (old new : PlayerUpd) : PlayerUpd :=
  { x := new.x <|> old.x
    y := new.y <|> old.y
    facing := new.facing <|> old.facing
    avatar := new.avatar <|> old.avatar
    username := new.username <|> old.username
    animationFrame := new.animationFrame <|> old.animationFrame }

/-- The spec's per-field last-write-wins processing of one `players_moved`
message (each entry merged field-by-field onto the stored record). -/
def specPerFieldMoved (entries : List (String × PlayerUpd))
    (m : List (String × PlayerUpd)) : List (String × PlayerUpd) :=
  entries.foldl
    (fun acc e => mapSet e.1 (mergeUpd ((mapGet e.1 acc).getD emptyUpd) e.2) acc) m

/-- The last record for `id` among the entries of one message (the one a
last-write-wins replacement leaves stored). -/
def lastEntryFor (id : String) : List (String × PlayerUpd) → Option PlayerUpd
  | [] => none
  | (k, v) :: rest =>
    match lastEntryFor id rest with
    | some w => some w
    | none => if k = id then some v else none

/-- The last record for `id` across a sequence of messages. -/
def lastRecord (id : String) : List (List (String × PlayerUpd)) → Option PlayerUpd
  | [] => none
  | msg :: rest =>
    match lastRecord id rest with
    | some v => some v
    | none => lastEntryFor id msg

/-- First demo update for player `p`: carries `x := 1` and `y := 2`. -/
def updA : PlayerUpd :=
  { x := some 1, y := some 2, facing := none, avatar := none, username := none,
    animationFrame := none }

/-- Second demo update for player `p`: carries only `x := 3` (no `y`). -/
def updB : PlayerUpd :=
  { x := some 3, y := none, facing := none, avatar := none, username := none,
    animationFrame := none }

/-- Demo `players_moved` message carrying `updA` for player `p`. -/
def movedMsg1 : List (String × PlayerUpd) := [("p", updA)]

/-- Demo `players_moved` message carrying `updB` for player `p`. -/
def movedMsg2 : List (String × PlayerUpd) := [("p", updB)]

/-! ### Concrete demonstration states -/

/-- A demo local player at world position (100, 100). -/
def demoMe : Player :=
  { id := "me", x := 100, y := 100, facing := .south, avatar := "adventurer",
    username := "Abdoulaye", animationFrame := some 0 }

/-- A client whose browser window is wider than the world map
(viewport width 4096 > 2048), local player at (100, 100). -/
def wideWindowState : ClientState :=
  { initState 4096 768 with
      myPlayerId := some "me"
      players := [("me", demoMe)] }

/-- A client with an 800x600 viewport, local player at (100, 100): the
unclamped offsetX would be 100 - 400 < 0. -/
def centeredDemoState : ClientState :=
  { initState 800 600 with
      myPlayerId := some "me"
      players := [("me", demoMe)] }

/-- A player 40 units from the origin, first in map iteration order. -/
def pFirst : Player :=
  { id := "A", x := 0, y := 40, facing := .south, avatar := "a", username := "A",
    animationFrame := some 0 }

/-- A player exactly at the origin, second in map iteration order. -/
def pNearest : Player :=
  { id := "B", x := 0, y := 0, facing := .south, avatar := "a", username := "B",
    animationFrame := some 0 }

/-- A client with two players near the origin: `pFirst` iterated before the
strictly closer `pNearest`. -/
def hoverDemoState : ClientState :=
  { initState 800 600 with players := [("A", pFirst), ("B", pNearest)] }

/-- The demo local player for pointer interaction, far from the click. -/
def mePlayerFar : Player :=
  { id := "me", x := 500, y := 500, facing := .south, avatar := "a",
    username := "Abdoulaye", animationFrame := some 0 }

/-- A demo remote player at (10, 10). -/
def otherPlayer : Player :=
  { id := "other", x := 10, y := 10, facing := .south, avatar := "a",
    username := "O", animationFrame := some 0 }

/-- A connected client with a local player and a remote player to
right-click on. -/
def rightClickDemoState : ClientState :=
  { initState 800 600 with
      isConnected := true
      myPlayerId := some "me"
      players := [("me", mePlayerFar), ("other", otherPlayer)] }

/-- The demo local player at the origin, for follow logic. -/
def mePlayer0 : Player :=
  { id := "me", x := 0, y := 0, facing := .south, avatar := "a",
    username := "Abdoulaye", animationFrame := some 0 }

/-- A demo follow target 10√2 units away from the local player. -/
def followTarget : Player :=
  { id := "t", x := 10, y := 10, facing := .south, avatar := "a",
    username := "T", animationFrame := some 0 }

/-- A connected client currently following `followTarget`, which is within
the 50-unit interaction radius. -/
def followDemoState : ClientState :=
  { initState 800 600 with
      isConnected := true
      myPlayerId := some "me"
      players := [("me", mePlayer0), ("t", followTarget)]
      followingPlayer := some "t" }

/-- A demo avatar frame image that has not finished loading. -/
def demoImg : ImageAsset := { src := "frame0", complete := false }

/-- A demo avatar image bundle with a single (unloaded) frame per
direction. -/
def demoImgs : AvatarImages :=
  { north := [demoImg], south := [demoImg], east := [demoImg] }

/-- A demo player whose `animationFrame` (5) exceeds the frame count. -/
def spritePlayer : Player :=
  { id := "p", x := 100, y := 100, facing := .south, avatar := "av",
    username := "P", animationFrame := some 5 }

/-- A client about to draw `spritePlayer` with `demoImgs` loaded. -/
def spriteDemoState : ClientState :=
  { initState 800 600 with
      players := [("p", spritePlayer)]
      avatarImages := [("av", demoImgs)] }

/-! ### Keyboard scenario states and traces -/

/-- A connected client with an assigned player id, no keys pressed and no
timers armed (the state right after a successful join, as far as the input
controller is concerned). -/
def readyState : ClientState :=
  { initState 800 600 with isConnected := true, myPlayerId := some "me" }

/-- The key state with exactly direction `d` pressed. -/
def onlyKey (d : Dir) : KeyState :=
  setKey d true { up := false, down := false, left := false, right := false }

/-- `readyState` holding key `d` with the debounce timeout armed for `tF`
(the state right after the key-down). -/
def armedState (d : Dir) (tF : Nat) : ClientState :=
  { readyState with keyState := onlyKey d, movementTimeout := some tF }

/-- `readyState` holding key `d` with the repeat interval armed for `tN`
(the state after the debounce timeout fired). -/
def midState (d : Dir) (tN : Nat) : ClientState :=
  { readyState with keyState := onlyKey d, movementInterval := some tN }

/-- `readyState` holding keys `d1` and `d2` with the repeat interval armed
for `tI` (mid-hold of two keys). -/
def twoHeldState (d1 d2 : Dir) (tI : Nat) : ClientState :=
  { readyState with keyState := setKey d2 true (onlyKey d1), movementInterval := some tI }

/-- `n` interval-timer fires, the first at time `t`, one per
`movementRepeatMs`. -/
def intervalFires (t : Nat) : Nat → List (Nat × Ev)
  | 0 => []
  | n + 1 => (t, Ev.intervalFire) :: intervalFires (t + movementRepeatMs) n

/-- `n` move commands for `d`, the first at time `t`, one per
`movementRepeatMs`. -/
def moveOuts (d : Dir) (t : Nat) : Nat → List (Nat × Cmd)
  | 0 => []
  | n + 1 => (t, Cmd.moveDir d) :: moveOuts d (t + movementRepeatMs) n

/-- The single-key hold scenario: key `d` goes down at `t0`, the debounce
timeout fires on schedule, the repeat interval fires `n` times, and the key
is released at `t1`. -/
def holdTrace (d : Dir) (n t0 t1 : Nat) : List (Nat × Ev) :=
  (t0, Ev.keyDown (arrowOf d)) :: (t0 + movementDelayMs, Ev.timeoutFire) ::
    (intervalFires (t0 + movementDelayMs + movementRepeatMs) n ++
      [(t1, Ev.keyUp (arrowOf d))])

/-- The partial-release scenario: with `d1` and `d2` held, `d1` is released
at `tU`, the rearmed debounce timeout fires on schedule, the repeat
interval fires `n` times for the remaining key, and `d2` is released at
`t2`. -/
def releaseTrace (d1 d2 : Dir) (n tU t2 : Nat) : List (Nat × Ev) :=
  (tU, Ev.keyUp (arrowOf d1)) :: (tU + movementDelayMs, Ev.timeoutFire) ::
    (intervalFires (tU + movementDelayMs + movementRepeatMs) n ++
      [(t2, Ev.keyUp (arrowOf d2))])

/-! ## Association-list map lemmas -/

theorem mapGet_mapSet {α : Type} (k q : String) (v : α) (m : List (String × α)) :
    mapGet q (mapSet k v m) = if k = q then some v else mapGet q m := by
  induction m with
  | nil => simp [mapGet, mapSet]
  | cons e rest ih =>
    obtain ⟨q', w⟩ := e
    by_cases h1 : q' = k
    · subst h1
      simp only [mapSet, if_pos rfl, mapGet]
      by_cases h2 : q' = q <;> simp [h2]
    · simp only [mapSet, if_neg h1, mapGet]
      by_cases h2 : q' = q
      · subst h2
        have : ¬ k = q' := fun h => h1 h.symm
        simp [this]
      · simp [h2, ih]

/-! ## C1: the players_moved merge is per whole record, not per field -/

theorem mapGet_handlePlayersMovedUpd (id : String) :
    ∀ (entries : List (String × PlayerUpd)) (m : List (String × PlayerUpd)),
      mapGet id (handlePlayersMovedUpd entries m)
        = match lastEntryFor id entries with
          | some v => some v
          | none => mapGet id m := by
  intro entries
  induction entries with
  | nil => intro m; simp [handlePlayersMovedUpd, lastEntryFor]
  | cons e rest ih =>
    intro m
    obtain ⟨k, v⟩ := e
    have hstep : handlePlayersMovedUpd ((k, v) :: rest) m
        = handlePlayersMovedUpd rest (mapSet k v m) := rfl
    rw [hstep, ih]
    simp only [lastEntryFor]
    cases hl : lastEntryFor id rest with
    | some w => simp
    | none =>
      simp only [mapGet_mapSet]
      by_cases hk : k = id <;> simp [hk]

/-- C1 (counterexample): processing an update that carries only `x` after
one that carried `x` and `y` leaves the stored `y` absent (the whole record
is replaced), whereas the claimed per-field merge would keep `y = 2`, the
value of the most recent message that included the field. -/
theorem playersMoved_merge_not_per_field :
    ¬ ((mapGet "p" (handlePlayersMovedUpd movedMsg2
          (handlePlayersMovedUpd movedMsg1 []))).bind PlayerUpd.y = some 2)
  ∧ (mapGet "p" (specPerFieldMoved movedMsg2
        (specPerFieldMoved movedMsg1 []))).bind PlayerUpd.y = some 2 := by
  constructor <;>
    simp [handlePlayersMovedUpd, specPerFieldMoved, movedMsg1, movedMsg2,
      mapSet, mapGet, mergeUpd, emptyUpd, updA, updB]

/-- C1 (amended): for every sequence of `players_moved` messages the stored
state of a player is last-write-wins per whole record: the stored record
equals exactly the record of the most recently processed entry naming that
player (fields absent from that entry are absent from the stored record),
and a player named by no message keeps its prior record. -/
theorem playersMoved_last_record_wins (msgs : List (List (String × PlayerUpd)))
    (m0 : List (String × PlayerUpd)) (id : String) :
    mapGet id (msgs.foldl (fun m msg => handlePlayersMovedUpd msg m) m0)
      = match lastRecord id msgs with
        | some v => some v
        | none => mapGet id m0 := by
  induction msgs generalizing m0 with
  | nil => simp [lastRecord]
  | cons msg rest ih =>
    have hstep : (msg :: rest).foldl (fun m msg => handlePlayersMovedUpd msg m) m0
        = rest.foldl (fun m msg => handlePlayersMovedUpd msg m)
            (handlePlayersMovedUpd msg m0) := rfl
    rw [hstep, ih]
    simp only [lastRecord]
    cases hl : lastRecord id rest with
    | some v => simp
    | none => simp [mapGet_handlePlayersMovedUpd]

/-! ## C9: unknown tags and failed joins change nothing -/

/-- C9: a message with an unknown action tag, and a `join_game` failure
response, each leave the whole client state (player id, players, avatars,
avatar image cache, viewport, and all the rest) unchanged. -/
theorem unknown_and_failed_join_leave_state_unchanged (s : ClientState) :
    (∀ tag, handleServerMessage (ServerMsg.unknown tag) s = s)
  ∧ (∀ pid ps avs err,
      handleServerMessage (ServerMsg.joinGameResp false pid ps avs err) s = s) :=
  ⟨fun _ => rfl, fun _ _ _ _ => rfl⟩

/-! ## C2: viewport clamping -/

/-- C2 (counterexample): with a viewport wider than the world (width 4096)
and the local player present at (100, 100), `updateViewport` clamps
`offsetX` to 0, which is not in the claimed interval
`[0, worldSize - width] = [0, -2048]`. -/
theorem viewport_bound_fails_for_oversized_window :
    wideWindowState.myPlayerId = some "me"
  ∧ mapGet "me" wideWindowState.players = some demoMe
  ∧ ¬ ((updateViewport wideWindowState).viewport.offsetX
        ≤ worldSize - wideWindowState.viewport.width) := by
  refine ⟨rfl, by simp [wideWindowState, mapGet], ?_⟩
  norm_num [updateViewport, wideWindowState, initState, mapGet, worldSize, demoMe,
    max_def, min_def]

/-- C2 (amended): whenever the viewport dimensions do not exceed the world
size, `updateViewport` yields `offsetX` in `[0, worldSize - width]` and
`offsetY` in `[0, worldSize - height]` (when a dimension exceeds the world
size the offset clamps to 0 instead, which lies above `worldSize - width`);
in particular, for the local player at (100, 100) with viewport width 800
the computed `offsetX` is clamped to 0. -/
theorem viewport_offsets_clamped :
    (∀ (s : ClientState) (pid : String) (p : Player),
       s.myPlayerId = some pid → mapGet pid s.players = some p →
       s.viewport.width ≤ worldSize → s.viewport.height ≤ worldSize →
       0 ≤ (updateViewport s).viewport.offsetX
       ∧ (updateViewport s).viewport.offsetX ≤ worldSize - s.viewport.width
       ∧ 0 ≤ (updateViewport s).viewport.offsetY
       ∧ (updateViewport s).viewport.offsetY ≤ worldSize - s.viewport.height)
  ∧ (updateViewport centeredDemoState).viewport.offsetX = 0 := by
  constructor
  · intro s pid p h1 h2 hw hh
    simp only [updateViewport, h1, h2]
    refine ⟨le_max_left 0 _, ?_, le_max_left 0 _, ?_⟩
    · exact max_le (by linarith) (min_le_right _ _)
    · exact max_le (by linarith) (min_le_right _ _)
  · norm_num [updateViewport, centeredDemoState, initState, mapGet, worldSize,
      demoMe, max_def, min_def]

/-- Witness for the amended C2 at the claim's own instance: local player at
(100, 100), viewport 800x600. -/
theorem viewport_offsets_clamped_witness :
    0 ≤ (updateViewport centeredDemoState).viewport.offsetX
    ∧ (updateViewport centeredDemoState).viewport.offsetX
        ≤ worldSize - centeredDemoState.viewport.width
    ∧ 0 ≤ (updateViewport centeredDemoState).viewport.offsetY
    ∧ (updateViewport centeredDemoState).viewport.offsetY
        ≤ worldSize - centeredDemoState.viewport.height :=
  viewport_offsets_clamped.1 centeredDemoState "me" demoMe rfl
    (by simp [centeredDemoState, mapGet])
    (by norm_num [centeredDemoState, initState, worldSize])
    (by norm_num [centeredDemoState, initState, worldSize])

/-! ## C4: hover target selection -/

/-- C4 (counterexample): with `pFirst` 40 units from the pointer iterated
before `pNearest` 0 units away (both within the 50-unit radius), the hover
target becomes `pFirst`, not the nearest player. -/
theorem hover_not_nearest :
    (handleMouseMove 0 0 hoverDemoState).hoveredPlayer = some pFirst
  ∧ (pNearest.x - 0) ^ 2 + (pNearest.y - 0) ^ 2 < 2500
  ∧ (pNearest.x - 0) ^ 2 + (pNearest.y - 0) ^ 2
      < (pFirst.x - 0) ^ 2 + (pFirst.y - 0) ^ 2
  ∧ pFirst ≠ pNearest := by
  refine ⟨?_, by norm_num [pNearest], by norm_num [pNearest, pFirst],
    by simp [pFirst, pNearest]⟩
  simp only [handleMouseMove, hoverDemoState, initState]
  norm_num [getPlayerAtPosition, pFirst]

theorem getPlayerAtPosition_eq_find (ps : List (String × Player)) (x y : ℚ) :
    getPlayerAtPosition ps x y
      = (ps.find? (fun e =>
          decide ((e.2.x - x) ^ 2 + (e.2.y - y) ^ 2 < 2500))).map Prod.snd := by
  induction ps with
  | nil => simp [getPlayerAtPosition]
  | cons e rest ih =>
    obtain ⟨k, p⟩ := e
    by_cases h : (p.x - x) ^ 2 + (p.y - y) ^ 2 < 2500 <;>
      simp [getPlayerAtPosition, List.find?, h, ih]

/-- C4 (amended): on every pointer move the hover target becomes the first
player in map iteration order whose distance to the pointer's world
position is below 50 units, and null when no player is within that
radius (`find?` returns `none` exactly then). -/
theorem hover_is_first_within_radius (s : ClientState) (mx my : ℚ) :
    (handleMouseMove mx my s).hoveredPlayer
      = (s.players.find? (fun e =>
          decide ((e.2.x - (mx + s.viewport.offsetX)) ^ 2
            + (e.2.y - (my + s.viewport.offsetY)) ^ 2 < 2500))).map Prod.snd := by
  simp only [handleMouseMove]
  exact getPlayerAtPosition_eq_find s.players _ _

/-! ## C5: right-click behaviour -/

/-- C5 (counterexample): a right-click whose world position hit-tests to
`otherPlayer` (not the local player) leaves the follow target `none`; no
follow target is ever set. -/
theorem rightClick_does_not_set_follow_target :
    getPlayerAtPosition rightClickDemoState.players 10 10 = some otherPlayer
  ∧ otherPlayer.id ≠ "me"
  ∧ (handleRightClick 10 10 (1/2) (1/2) rightClickDemoState).1.followingPlayer
      = none := by
  have hget : getPlayerAtPosition rightClickDemoState.players 10 10
      = some otherPlayer := by
    simp only [rightClickDemoState, initState]
    norm_num [getPlayerAtPosition, mePlayerFar, otherPlayer]
  refine ⟨hget, by simp [otherPlayer], ?_⟩
  simp only [handleRightClick, rightClickDemoState, initState] at *
  norm_num [hget, otherPlayer, sendMoveCommandXY] at *
  simp [rightClickDemoState, initState]

/-- C5 (amended): a right-click whose world position hit-tests to a player
other than the local one sends exactly one coordinate-targeted move command
toward a random point near that player, and leaves the client state (in
particular the follow target) unchanged. -/
theorem rightClick_sends_coordinate_move (s : ClientState) (x y r1 r2 : ℚ)
    (p : Player) (myId : String)
    (hc : s.isConnected = true) (hid : s.myPlayerId = some myId)
    (hp : getPlayerAtPosition s.players (x + s.viewport.offsetX)
            (y + s.viewport.offsetY) = some p)
    (hne : p.id ≠ myId) :
    handleRightClick x y r1 r2 s
      = (s, [Cmd.moveCoord (p.x + (r1 - 1/2) * 100) (p.y + (r2 - 1/2) * 100)]) := by
  simp [handleRightClick, hc, hid, hp, hne, sendMoveCommandXY]

/-- Witness for the amended C5 at a concrete right-click on `otherPlayer`. -/
theorem rightClick_sends_coordinate_move_witness :
    handleRightClick 10 10 (1/2) (1/2) rightClickDemoState
      = (rightClickDemoState,
         [Cmd.moveCoord (otherPlayer.x + (1/2 - 1/2) * 100)
            (otherPlayer.y + (1/2 - 1/2) * 100)]) :=
  rightClick_sends_coordinate_move rightClickDemoState 10 10 (1/2) (1/2)
    otherPlayer "me" rfl rfl
    (by simp only [rightClickDemoState, initState]
        norm_num [getPlayerAtPosition, mePlayerFar, otherPlayer])
    (by simp [otherPlayer])

/-! ## C6: per-tick follow logic -/

/-- C6: on a tick with a follow target set and the local player present:
within 50 units of the target the client clears the target and sends
exactly one stop command; at 50 units or more it sends exactly one move
command along the dominant axis toward the target; a target absent from the
players map is cleared without any command; and with no target set the
follow logic sends nothing (so no move follows the stop until a new target
is set).  The last conjunct states that `domDir` picks the horizontal axis
exactly when the x-displacement strictly dominates. -/
theorem follow_tick_behaviour :
    (∀ (s : ClientState) (fid myId : String) (target me : Player),
       s.isConnected = true → s.followingPlayer = some fid →
       mapGet fid s.players = some target →
       s.myPlayerId = some myId → mapGet myId s.players = some me →
       ((target.x - me.x) ^ 2 + (target.y - me.y) ^ 2 < 2500 →
          updateFollowPlayer s = ({ s with followingPlayer := none }, [Cmd.stop]))
       ∧ (¬ ((target.x - me.x) ^ 2 + (target.y - me.y) ^ 2 < 2500) →
          updateFollowPlayer s
            = (s, [Cmd.moveDir (domDir (target.x - me.x) (target.y - me.y))])))
  ∧ (∀ (s : ClientState) (fid : String), s.followingPlayer = some fid →
       mapGet fid s.players = none →
       updateFollowPlayer s = ({ s with followingPlayer := none }, []))
  ∧ (∀ s : ClientState, s.followingPlayer = none → (updateFollowPlayer s).2 = [])
  ∧ (∀ dx dy : ℚ,
       (domDir dx dy = Dir.left ∨ domDir dx dy = Dir.right) ↔ |dy| < |dx|) := by
  refine ⟨?_, ?_, ?_, ?_⟩
  · intro s fid myId target me hc hf ht hm hme
    constructor
    · intro hnear
      simp [updateFollowPlayer, hf, ht, hm, hme, hnear, sendStopCommand, hc]
    · intro hfar
      simp [updateFollowPlayer, hf, ht, hm, hme, hfar, sendMoveCommand, hc]
  · intro s fid hf ht
    simp [updateFollowPlayer, hf, ht]
  · intro s hf
    simp [updateFollowPlayer, hf]
  · intro dx dy
    unfold domDir
    by_cases h : |dy| < |dx|
    · by_cases hx : 0 < dx <;> simp [h, hx]
    · by_cases hy : 0 < dy <;> simp [h, hy]

/-- Witness for C6 at a concrete tick: the followed `followTarget` is
within 50 units, so the tick clears the target and stops. -/
theorem follow_tick_behaviour_witness :
    updateFollowPlayer followDemoState
      = ({ followDemoState with followingPlayer := none }, [Cmd.stop]) :=
  (follow_tick_behaviour.1 followDemoState "t" "me" followTarget mePlayer0
      rfl rfl
      (by simp [followDemoState, initState, mapGet])
      rfl
      (by simp [followDemoState, initState, mapGet])).1
    (by norm_num [followTarget, mePlayer0])

/-! ## C8: frame index clamping and unloaded-asset skip -/

/-- C8: for every player and nonempty frame sequence the frame index used
by `drawPlayer` is clamped into `[0, frameCount - 1]` (it is a natural
number below the length, so the asset lookup always succeeds); and when the
selected frame's image has not finished loading, `drawPlayer` skips that
player's sprite for the frame (`skippedNotLoaded`) instead of drawing or
failing. -/
theorem frame_index_clamped_and_unloaded_skip :
    (∀ (p : Player) (fr : List ImageAsset), fr ≠ [] →
       frameIndexOf p fr < fr.length ∧ (fr.get? (frameIndexOf p fr)).isSome = true)
  ∧ (∀ (s : ClientState) (p : Player) (imgs : AvatarImages) (img : ImageAsset),
       inViewport s p = true →
       mapGet p.avatar s.avatarImages = some imgs →
       (framesFor p.facing imgs).1.get? (frameIndexOf p (framesFor p.facing imgs).1)
         = some img →
       img.complete = false →
       drawPlayer s p = DrawResult.skippedNotLoaded) := by
  constructor
  · intro p fr hne
    have hlen : 0 < fr.length := List.length_pos.mpr hne
    have hidx : frameIndexOf p fr < fr.length := by
      have : frameIndexOf p fr ≤ fr.length - 1 := min_le_right _ _
      omega
    refine ⟨hidx, ?_⟩
    rw [List.get?_eq_get hidx]
    rfl
  · intro s p imgs img hview hav hget hcomp
    have hlt : frameIndexOf p (framesFor p.facing imgs).1
        < (framesFor p.facing imgs).1.length := by
      by_contra hge
      rw [List.get?_eq_none.mpr (by omega)] at hget
      exact Option.noConfusion hget
    have hlen : (framesFor p.facing imgs).1.length ≠ 0 := by omega
    rw [List.get?_eq_getElem?] at hget
    simp [drawPlayer, hview, hav, hlen, hget, hcomp]

/-- Witness for C8: `spritePlayer` has `animationFrame = 5` against a
single-frame sheet, so the index clamps to 0; the frame is not yet loaded,
so the draw is skipped. -/
theorem frame_index_clamped_and_unloaded_skip_witness :
    (frameIndexOf spritePlayer [demoImg] < [demoImg].length
      ∧ ([demoImg].get? (frameIndexOf spritePlayer [demoImg])).isSome = true)
    ∧ drawPlayer spriteDemoState spritePlayer = DrawResult.skippedNotLoaded :=
  ⟨frame_index_clamped_and_unloaded_skip.1 spritePlayer [demoImg] (by simp),
   frame_index_clamped_and_unloaded_skip.2 spriteDemoState spritePlayer demoImgs
     demoImg
     (by norm_num [inViewport, spriteDemoState, initState, spritePlayer])
     (by simp [spriteDemoState, initState, mapGet, spritePlayer])
     (by simp [framesFor, spritePlayer, demoImgs, frameIndexOf])
     rfl⟩

/-! ## C3 and C7: continuous-movement traces -/

theorem run_nil (s : ClientState) : run [] s = (s, []) := rfl

theorem run_cons (t : Nat) (e : Ev) (rest : List (Nat × Ev)) (s : ClientState) :
    run ((t, e) :: rest) s
      = ((run rest (step t e s).1).1,
         (step t e s).2.map (fun c => (t, c)) ++ (run rest (step t e s).1).2) := rfl

theorem stepKeyDown_ready (t : Nat) (d : Dir) :
    step t (Ev.keyDown (arrowOf d)) readyState
      = (armedState d (t + movementDelayMs), [Cmd.moveDir d]) := by
  cases d <;> rfl

theorem stepTimeout_armed (d : Dir) (tF : Nat) :
    step tF Ev.timeoutFire (armedState d tF)
      = (midState d (tF + movementRepeatMs), []) := by
  cases d <;>
    simp [step, fireMovementTimeout, armedState, midState, anyKeyPressed,
      onlyKey, setKey, readyState, initState]

theorem stepInterval_mid (d : Dir) (t : Nat) :
    step t Ev.intervalFire (midState d t)
      = (midState d (t + movementRepeatMs), [Cmd.moveDir d]) := by
  cases d <;>
    simp [step, fireMovementInterval, midState, sendMoveCommandForActiveKeys,
      sendMoveCommand, onlyKey, setKey, readyState, initState]

theorem stepKeyUp_mid (d : Dir) (tN t2 : Nat) :
    step t2 (Ev.keyUp (arrowOf d)) (midState d tN) = (readyState, [Cmd.stop]) := by
  cases d <;> rfl

theorem stepKeyUp_twoHeld (d1 d2 : Dir) (h : d1 ≠ d2) (tI tU : Nat) :
    step tU (Ev.keyUp (arrowOf d1)) (twoHeldState d1 d2 tI)
      = (armedState d2 (tU + movementDelayMs), []) := by
  cases d1 <;> cases d2 <;> first
    | exact absurd rfl h
    | rfl

theorem run_intervalFires (d : Dir) (n : Nat) :
    ∀ (t : Nat) (rest : List (Nat × Ev)),
      run (intervalFires t n ++ rest) (midState d t)
        = ((run rest (midState d (t + movementRepeatMs * n))).1,
           moveOuts d t n ++ (run rest (midState d (t + movementRepeatMs * n))).2) := by
  induction n with
  | zero =>
    intro t rest
    simp [intervalFires, moveOuts]
  | succ n ih =>
    intro t rest
    have harith : t + movementRepeatMs + movementRepeatMs * n
        = t + movementRepeatMs * (n + 1) := by ring
    simp only [intervalFires, List.cons_append, run_cons, stepInterval_mid,
      List.map_cons, List.map_nil]
    rw [ih (t + movementRepeatMs) rest, harith]
    simp [moveOuts]

theorem run_armed_phase (d : Dir) (tF n t2 : Nat) :
    run ((tF, Ev.timeoutFire) ::
        (intervalFires (tF + movementRepeatMs) n ++ [(t2, Ev.keyUp (arrowOf d))]))
        (armedState d tF)
      = (readyState, moveOuts d (tF + movementRepeatMs) n ++ [(t2, Cmd.stop)]) := by
  rw [run_cons, stepTimeout_armed]
  rw [run_intervalFires d n (tF + movementRepeatMs) [(t2, Ev.keyUp (arrowOf d))]]
  simp [run_cons, run_nil, stepKeyUp_mid]

/-- C3: for a direction key pressed from the ready state (connected, player
id assigned, no key held), the client sends exactly one immediate move
command for that direction at the key-down; after the 200 ms debounce the
repeat interval sends exactly one move command per 100 ms while the key is
held; releasing the key sends exactly one stop command; and afterwards the
client is back in the ready state, whose timers are disarmed, so timer
events produce no further commands. -/
theorem hold_key_debounced_repeat_then_stop (d : Dir) (n t0 t1 : Nat) :
    run (holdTrace d n t0 t1) readyState
      = (readyState,
         (t0, Cmd.moveDir d) ::
           (moveOuts d (t0 + movementDelayMs + movementRepeatMs) n
             ++ [(t1, Cmd.stop)]))
  ∧ (∀ t, step t Ev.timeoutFire readyState = (readyState, [])
        ∧ step t Ev.intervalFire readyState = (readyState, [])) := by
  constructor
  · rw [holdTrace, run_cons, stepKeyDown_ready]
    rw [run_armed_phase d (t0 + movementDelayMs) n t1]
    simp
  · intro t
    constructor <;>
      simp [step, fireMovementTimeout, fireMovementInterval, readyState, initState]

/-- C7: with two direction keys held mid-repeat, releasing one sends no
command at all (in particular no stop); the rearmed debounce and repeat
then send one move command per interval for the remaining key only; and
only the release of the last held key cancels the timers and sends exactly
one stop command, returning the client to the ready state. -/
theorem release_one_of_two_keys_no_stop (d1 d2 : Dir) (h : d1 ≠ d2)
    (tI n tU t2 : Nat) :
    run (releaseTrace d1 d2 n tU t2) (twoHeldState d1 d2 tI)
      = (readyState,
         moveOuts d2 (tU + movementDelayMs + movementRepeatMs) n
           ++ [(t2, Cmd.stop)]) := by
  rw [releaseTrace, run_cons, stepKeyUp_twoHeld d1 d2 h tI tU]
  rw [run_armed_phase d2 (tU + movementDelayMs) n t2]
  simp

/-- Witness for C7: holding up and down, releasing up at time 0, one
repeat fire for down, then releasing down at time 1000. -/
theorem release_one_of_two_keys_no_stop_witness :
    run (releaseTrace Dir.up Dir.down 1 0 1000) (twoHeldState Dir.up Dir.down 0)
      = (readyState,
         moveOuts Dir.down (0 + movementDelayMs + movementRepeatMs) 1
           ++ [(1000, Cmd.stop)]) :=
  release_one_of_two_keys_no_stop Dir.up Dir.down (by decide) 0 1 0 1000

/-! ## C10: the settings object is never mutated -/

theorem settings_foldl {α : Type} (f : ClientState → α → ClientState)
    (hf : ∀ st a, (f st a).settings = st.settings) (l : List α) :
    ∀ st : ClientState, (l.foldl f st).settings = st.settings := by
  induction l with
  | nil => intro st; rfl
  | cons a rest ih => intro st; rw [List.foldl_cons, ih, hf]

theorem settings_updateViewport (s : ClientState) :
    (updateViewport s).settings = s.settings := by
  unfold updateViewport
  (try dsimp only)
  (repeat' split) <;> rfl

theorem settings_handleJoinGameSuccess (pid : String) (ps : List (String × Player))
    (avs : List (String × Avatar)) (s : ClientState) :
    (handleJoinGameSuccess pid ps avs s).settings = s.settings := by
  unfold handleJoinGameSuccess
  rw [settings_updateViewport]
  exact settings_foldl
    (fun st e => loadAvatarImages e.1 e.2 { st with avatars := mapSet e.1 e.2 st.avatars })
    (fun st e => rfl) avs _

theorem settings_handleServerMessage (m : ServerMsg) (s : ClientState) :
    (handleServerMessage m s).settings = s.settings := by
  cases m with
  | joinGameResp success pid ps avs err =>
    cases success
    · rfl
    · exact settings_handleJoinGameSuccess pid ps avs s
  | playerJoined p a => rfl
  | playersMoved ps =>
    unfold handleServerMessage handlePlayersMoved
    rw [settings_updateViewport]
  | playerLeft pid => rfl
  | unknown tag => rfl

theorem settings_handleKeyDown (t : Nat) (c : KeyCode) (s : ClientState) :
    (handleKeyDown t c s).1.settings = s.settings := by
  cases c <;> (try rfl) <;>
    (simp only [handleKeyDown]
     split
     · rfl
     · split
       · rfl
       · split
         · rfl
         · rfl)

theorem settings_handleKeyUp (t : Nat) (c : KeyCode) (s : ClientState) :
    (handleKeyUp t c s).1.settings = s.settings := by
  unfold handleKeyUp
  (try dsimp only)
  (repeat' split) <;> rfl

theorem settings_fireMovementTimeout (t : Nat) (s : ClientState) :
    (fireMovementTimeout t s).1.settings = s.settings := by
  unfold fireMovementTimeout
  split
  · split <;> rfl
  · rfl

theorem settings_fireMovementInterval (t : Nat) (s : ClientState) :
    (fireMovementInterval t s).1.settings = s.settings := by
  unfold fireMovementInterval
  split <;> rfl

theorem settings_handleRightClick (x y r1 r2 : ℚ) (s : ClientState) :
    (handleRightClick x y r1 r2 s).1.settings = s.settings := by
  unfold handleRightClick
  (try dsimp only)
  (repeat' split) <;> rfl

theorem settings_updateFollowPlayer (s : ClientState) :
    (updateFollowPlayer s).1.settings = s.settings := by
  unfold updateFollowPlayer
  (repeat' split) <;> rfl

theorem settings_addParticle (r1 r2 x y : ℚ) (s : ClientState) :
    (addParticle r1 r2 x y s).settings = s.settings := by
  unfold addParticle
  split <;> rfl

theorem settings_updateStats (r1 r2 : ℚ) (s : ClientState) :
    (updateStats r1 r2 s).settings = s.settings := by
  unfold updateStats
  (try dsimp only)
  (repeat' split) <;> first
    | rfl
    | exact settings_addParticle _ _ _ _ _

theorem settings_update (r1 r2 : ℚ) (s : ClientState) :
    (update r1 r2 s).1.settings = s.settings := by
  calc (update r1 r2 s).1.settings
      = (updateStats r1 r2 (updateParticles (updateFollowPlayer s).1)).settings := rfl
    _ = (updateParticles (updateFollowPlayer s).1).settings :=
        settings_updateStats r1 r2 _
    _ = (updateFollowPlayer s).1.settings := rfl
    _ = s.settings := settings_updateFollowPlayer s

theorem settings_applyImgLoad (name : String) (d : SheetDir) (i : Nat)
    (s : ClientState) :
    (applyImgLoad name d i s).settings = s.settings := by
  unfold applyImgLoad
  cases d <;> (try dsimp only) <;> (repeat' split) <;> rfl

theorem settings_step (t : Nat) (e : Ev) (s : ClientState) :
    ((step t e s).1).settings = s.settings := by
  cases e with
  | keyDown c => exact settings_handleKeyDown t c s
  | keyUp c => exact settings_handleKeyUp t c s
  | timeoutFire => exact settings_fireMovementTimeout t s
  | intervalFire => exact settings_fireMovementInterval t s
  | mouseMove x y => rfl
  | rightClick x y r1 r2 => exact settings_handleRightClick x y r1 r2 s
  | serverMsg m => exact settings_handleServerMessage m s
  | connOpen => rfl
  | connClose => rfl
  | tick r1 r2 => exact settings_update r1 r2 s
  | resize w h => exact settings_updateViewport _
  | imgLoad name d i => exact settings_applyImgLoad name d i s

/-- C10: in every reachable client state the mini-map and particle settings
still hold their initial value `true` - no handler, message, or tick ever
mutates the settings object - so the guards that would suppress particle
spawning, particle drawing, and mini-map drawing are never taken. -/
theorem settings_flags_invariant (s : ClientState) (h : Reachable s) :
    s.settings.showMiniMap = true ∧ s.settings.showParticles = true := by
  induction h with
  | init w h => exact ⟨rfl, rfl⟩
  | step t e hs ih =>
    rw [settings_step]
    exact ih

/-- Witness for C10 at the constructor's state. -/
theorem settings_flags_invariant_witness :
    (initState 800 600).settings.showMiniMap = true
    ∧ (initState 800 600).settings.showParticles = true :=
  settings_flags_invariant (initState 800 600) (Reachable.init 800 600)

end Game
